import Mathlib

/-!
Shallow embedding of the Basketball-API repository (Lakers dashboard).

Embedded source files:
* `src/main.py` — the process-wide cache (`_cache`, `get_cached`, `set_cache`)
  and the two cache-fronted query functions `get_fixed_team` and
  `get_team_games`.
* `src/services/nba.py` — `get_lakers_games`, the normalization of raw
  upstream game records into processed game dictionaries.

Modelling conventions:
* Time is a `Nat` (seconds); `CACHE_DURATION = timedelta(minutes=5)` becomes
  `300`.
* The global dict `_cache` is threaded explicitly: each embedded function
  takes the cache and returns the (possibly updated) cache.
* An upstream HTTP interaction is a value of `Upstream α`: either a response
  with a status code and a decoded body, or `exn` for a raised exception
  (network error / timeout).  A function "does not call upstream" iff its
  result does not depend on this argument.
* Python dict `.get` with defaults becomes `Option.getD`; Python truthiness
  of a cached value (`if stale_data:`) is `CacheValue.truthy` (a 3-tuple is
  always truthy, a list is truthy iff nonempty).
* `services/nba.py` has no try/except, so `get_lakers_games` returns
  `Except String _`: an upstream exception propagates as `.error`.
-/

/-- Team info tuple `(team_name, team_city, team_abbreviation)` produced by
`get_fixed_team` in `src/main.py`. -/
structure TeamInfo where
  name : String
  city : String
  abbreviation : String
deriving DecidableEq, Repr

/-- A raw team sub-object of an upstream game record (`home_team` /
`visitor_team`), with the fields `src` reads; a missing field is `none`. -/
structure RawTeam where
  id : Option Int
  full_name : Option String
  abbreviation : Option String
deriving DecidableEq, Repr

/-- A raw upstream game record, with the fields the source reads; a missing
field is `none` (Python `dict.get`). -/
structure RawGame where
  home_team : Option RawTeam
  visitor_team : Option RawTeam
  home_team_score : Option Int
  visitor_team_score : Option Int
  date : Option String
  status : Option String
deriving DecidableEq, Repr

/-- The values the program ever stores in the `_cache` dict of `src/main.py`:
a team-info tuple (under `team_…` keys) or a raw games list (under
`games_…` keys). -/
inductive CacheValue where
  | team (t : TeamInfo)
  | games (g : List RawGame)
deriving DecidableEq, Repr

/-- Python truthiness of a cached value: a 3-tuple is always truthy, a list is
truthy iff it is nonempty.  Used to embed `if stale_data:` faithfully. -/
def CacheValue.truthy : CacheValue → Bool
  | .team _ => true
  | .games g => !g.isEmpty

/-- The `_cache` dict of `src/main.py`: key ↦ `(data, timestamp)`.  Modelled
as an association list; `set_cache` removes any prior binding of the key, so
lookup agrees with the Python dict. -/
abbrev Cache := List (String × (CacheValue × Nat))

/-- `CACHE_DURATION = timedelta(minutes=5)`, in seconds. -/
def CACHE_DURATION : Nat := 300

/-- `FIXED_TEAM_ID = 14` (`src/main.py`). -/
def FIXED_TEAM_ID : Int := 14

/-- `LAKERS_TEAM_ID = 14` (`src/services/nba.py`). -/
def LAKERS_TEAM_ID : Int := 14

/-- An upstream HTTP interaction: a response with status code and decoded
body, or a raised exception (network error / timeout). -/
inductive Upstream (α : Type) where
  | response (status : Nat) (body : α)
  | exn
deriving DecidableEq, Repr

/-- The upstream call failed: a non-200 status or a raised exception. -/
def Upstream.fails : Upstream α → Bool
  | .response status _ => status ≠ 200
  | .exn => true

/-- `get_cached(key, allow_stale)` from `src/main.py`: if the key is present
and the entry is younger than `CACHE_DURATION`, return `(data, True)`; if
present but stale and `allow_stale`, return `(data, False)`; otherwise
`(None, False)`.  `now` stands for `datetime.now()`. -/
def get_cached (cache : Cache) (now : Nat) (key : String)
    (allow_stale : Bool := false) : Option CacheValue × Bool :=
  match cache.lookup key with
  | some (data, timestamp) =>
      let is_fresh := now - timestamp < CACHE_DURATION
      if is_fresh then (some data, true)
      else if allow_stale then (some data, false)
      else (none, false)
  | none => (none, false)

/-- `set_cache(key, data)` from `src/main.py`: `_cache[key] = (data,
datetime.now())`, replacing any prior entry for the key. -/
def set_cache (cache : Cache) (key : String) (data : CacheValue) (now : Nat) :
    Cache :=
  (key, (data, now)) :: cache.filter (fun e => e.1 ≠ key)

/-- The cache key `f"team_{FIXED_TEAM_ID}"` of `get_fixed_team`. -/
def team_cache_key : String := "team_" ++ toString FIXED_TEAM_ID

/-- The cache key `f"games_{team_id}_{season}_{per_page}"` of
`get_team_games`. -/
def games_cache_key (team_id season per_page : Int) : String :=
  "games_" ++ toString team_id ++ "_" ++ toString season ++ "_" ++
    toString per_page

/-- `get_fixed_team()` from `src/main.py`.  Returns the produced value
(`None` on total failure) together with the cache after the call.  The
upstream body is the decoded `(name, city, abbreviation)` of the 200
response. -/
def get_fixed_team (cache : Cache) (now : Nat)
    (upstream : Upstream TeamInfo) : Option CacheValue × Cache :=
  match get_cached cache now team_cache_key with
  | (some cached, true) => (some cached, cache)
  | _ =>
    match upstream with
    | .response status body =>
        if status ≠ 200 then
          match (get_cached cache now team_cache_key true).1 with
          | some stale_data =>
              if stale_data.truthy then (some stale_data, cache)
              else (none, cache)
          | none => (none, cache)
        else
          let result := CacheValue.team body
          (some result, set_cache cache team_cache_key result now)
    | .exn =>
        match (get_cached cache now team_cache_key true).1 with
        | some stale_data =>
            if stale_data.truthy then (some stale_data, cache)
            else (none, cache)
        | none => (none, cache)

/-- `get_team_games(team_id, season, per_page)` from `src/main.py`.  Returns
the produced value (the raw games list from the response `data`, a cached
value, or the empty list) together with the cache after the call. -/
def get_team_games (cache : Cache) (now : Nat)
    (team_id season per_page : Int) (upstream : Upstream (List RawGame)) :
    CacheValue × Cache :=
  let cache_key := games_cache_key team_id season per_page
  match get_cached cache now cache_key with
  | (some cached, true) => (cached, cache)
  | _ =>
    match upstream with
    | .response status data =>
        if status ≠ 200 then
          match (get_cached cache now cache_key true).1 with
          | some stale_data =>
              if stale_data.truthy then (stale_data, cache)
              else (CacheValue.games [], cache)
          | none => (CacheValue.games [], cache)
        else
          (CacheValue.games data, set_cache cache cache_key
            (CacheValue.games data) now)
    | .exn =>
        match (get_cached cache now cache_key true).1 with
        | some stale_data =>
            if stale_data.truthy then (stale_data, cache)
            else (CacheValue.games [], cache)
        | none => (CacheValue.games [], cache)

/-- A processed game dictionary produced by `get_lakers_games` in
`src/services/nba.py`. -/
structure GameRecord where
  date : String
  lakers_score : Int
  opponent_score : Int
  opponent : String
  location : String
  won : Bool
  point_diff : Int
  status : String
deriving DecidableEq, Repr

/-- `home_team.get("id") == LAKERS_TEAM_ID` with `home_team =
game.get("home_team", {})` (`src/services/nba.py`). -/
def is_lakers_home (game : RawGame) : Bool :=
  (game.home_team.getD ⟨none, none, none⟩).id == some LAKERS_TEAM_ID

/-- The opponent sub-object: `visitor_team` when the Lakers are home, else
`home_team` (each defaulted to the empty dict). -/
def opponent_team (game : RawGame) : RawTeam :=
  if is_lakers_home game then game.visitor_team.getD ⟨none, none, none⟩
  else game.home_team.getD ⟨none, none, none⟩

/-- The per-record processing loop body of `get_lakers_games`
(`src/services/nba.py`): defaults missing fields, orients scores by
`is_lakers_home`, computes `won` and `point_diff`. -/
def normalize_game (game : RawGame) : GameRecord :=
  let home_score := game.home_team_score.getD 0
  let visitor_score := game.visitor_team_score.getD 0
  let lakers_score := if is_lakers_home game then home_score
    else visitor_score
  let opponent_score := if is_lakers_home game then visitor_score
    else home_score
  { date := game.date.getD ""
    lakers_score := lakers_score
    opponent_score := opponent_score
    opponent := (opponent_team game).full_name.getD "Unknown"
    location := if is_lakers_home game then "Home" else "Away"
    won := lakers_score > opponent_score
    point_diff := lakers_score - opponent_score
    status := game.status.getD "" }

/-- The sort key comparison of `processed_games.sort(key=lambda x:
x["date"])`: ascending by the `date` string. -/
def date_le (a b : GameRecord) : Bool := a.date ≤ b.date

/-- `get_lakers_games(season, per_page)` from `src/services/nba.py`: a direct
upstream fetch (no cache, no try/except).  A non-200 response yields `[]`; a
200 response yields the normalized records sorted by date ascending; a raised
exception propagates (`.error`). -/
def get_lakers_games (upstream : Upstream (List RawGame)) :
    Except String (List GameRecord) :=
  match upstream with
  | .exn => .error "requests.get raised"
  | .response status games =>
      if status ≠ 200 then .ok []
      else .ok ((games.map normalize_game).mergeSort date_le)

/-!
### Concrete fixtures

Fixed inputs used by witnesses and counterexamples.
-/

/-- Team info as the upstream team endpoint decodes it for the Lakers. -/
def tInfo0 : TeamInfo := ⟨"Lakers", "Los Angeles", "LAL"⟩

/-- The team value `get_fixed_team` stores in the cache. -/
def v0 : CacheValue := CacheValue.team tInfo0

/-- A raw game where the subject team (id 14) is the home team, with home
score 100 and visitor score 90, dated `d`. -/
def rawLakersHome (d : String) : RawGame :=
  { home_team := some ⟨some 14, some "Los Angeles Lakers", none⟩
    visitor_team := some ⟨some 2, some "Boston Celtics", none⟩
    home_team_score := some 100
    visitor_team_score := some 90
    date := some d
    status := some "Final" }

/-- The mirrored record: the subject team is the visitor, visitor score 100
and home score 90. -/
def cAway : RawGame :=
  { home_team := some ⟨some 2, some "Boston Celtics", none⟩
    visitor_team := some ⟨some 14, some "Los Angeles Lakers", none⟩
    home_team_score := some 90
    visitor_team_score := some 100
    date := some "2024-01-10"
    status := some "Final" }

/-- The home-side record of the normalization-symmetry example. -/
def cHome : RawGame := rawLakersHome "2024-01-10"

/-- Raw records for the sort-order example. -/
def rawJan : RawGame := rawLakersHome "2024-01-10"

/-- Raw record dated 2024-02-15. -/
def rawFeb : RawGame := rawLakersHome "2024-02-15"

/-- Raw record dated 2024-03-01. -/
def rawMar : RawGame := rawLakersHome "2024-03-01"

/-- A raw record with every field missing. -/
def rawEmpty : RawGame := ⟨none, none, none, none, none, none⟩

/-- A one-entry cache holding the team value, stored at time 0. -/
def c1cache : Cache := [("team_14", (v0, 0))]

/-- A cache holding both a team entry (stored at 50) and a games entry
(stored at 60). -/
def c3cache : Cache :=
  [("team_14", (v0, 50)), ("games_14_2024_25", (CacheValue.games [cHome], 60))]

/-- The processed list for the three-record sort-order example. -/
def processed3 : List GameRecord :=
  ([rawMar, rawJan, rawFeb].map normalize_game).mergeSort date_le

/-- The processed list for the missing-fields example. -/
def processedE : List GameRecord :=
  ([rawJan, rawEmpty].map normalize_game).mergeSort date_le

/-!
### Helper lemmas

Branch equations for the cache store and the two cache-fronted queries; each
claim theorem below is assembled from these.
-/

theorem get_cached_fresh (cache : Cache) (now : Nat) (key : String)
    (allow : Bool) (v : CacheValue) (t : Nat)
    (h : cache.lookup key = some (v, t)) (hf : now - t < CACHE_DURATION) :
    get_cached cache now key allow = (some v, true) := by
  simp [get_cached, h, hf]

theorem get_cached_stale_allow (cache : Cache) (now : Nat) (key : String)
    (v : CacheValue) (t : Nat)
    (h : cache.lookup key = some (v, t)) (hs : ¬ now - t < CACHE_DURATION) :
    get_cached cache now key true = (some v, false) := by
  simp [get_cached, h, hs]

theorem get_cached_stale_noallow (cache : Cache) (now : Nat) (key : String)
    (v : CacheValue) (t : Nat)
    (h : cache.lookup key = some (v, t)) (hs : ¬ now - t < CACHE_DURATION) :
    get_cached cache now key = (none, false) := by
  simp [get_cached, h, hs]

theorem get_cached_absent (cache : Cache) (now : Nat) (key : String)
    (allow : Bool) (h : cache.lookup key = none) :
    get_cached cache now key allow = (none, false) := by
  simp [get_cached, h]

theorem get_fixed_team_fresh (cache : Cache) (now : Nat) (v : CacheValue)
    (t : Nat) (h : cache.lookup team_cache_key = some (v, t))
    (hf : now - t < CACHE_DURATION) (u : Upstream TeamInfo) :
    get_fixed_team cache now u = (some v, cache) := by
  simp [get_fixed_team, get_cached_fresh cache now team_cache_key false v t h hf]

theorem get_fixed_team_success (cache : Cache) (now : Nat) (body : TeamInfo)
    (h2 : (get_cached cache now team_cache_key).2 = false) :
    get_fixed_team cache now (.response 200 body) =
      (some (CacheValue.team body),
        set_cache cache team_cache_key (CacheValue.team body) now) := by
  rcases hq : get_cached cache now team_cache_key with ⟨o, b⟩
  rw [hq] at h2
  subst h2
  cases o <;> simp [get_fixed_team, hq]

theorem get_fixed_team_fallback (cache : Cache) (now : Nat) (ti : TeamInfo)
    (t : Nat) (u : Upstream TeamInfo) (hu : u.fails = true)
    (h : cache.lookup team_cache_key = some (CacheValue.team ti, t)) :
    get_fixed_team cache now u = (some (CacheValue.team ti), cache) := by
  by_cases hf : now - t < CACHE_DURATION
  · exact get_fixed_team_fresh cache now _ t h hf u
  · have hna := get_cached_stale_noallow cache now team_cache_key _ t h hf
    have ha := get_cached_stale_allow cache now team_cache_key _ t h hf
    cases u with
    | exn => simp [get_fixed_team, hna, ha, CacheValue.truthy]
    | response s b =>
        simp only [Upstream.fails, decide_eq_true_eq] at hu
        simp [get_fixed_team, hna, ha, hu, CacheValue.truthy]

theorem get_fixed_team_fail_absent (cache : Cache) (now : Nat)
    (u : Upstream TeamInfo) (hu : u.fails = true)
    (h : cache.lookup team_cache_key = none) :
    get_fixed_team cache now u = (none, cache) := by
  have hna := get_cached_absent cache now team_cache_key false h
  have ha := get_cached_absent cache now team_cache_key true h
  cases u with
  | exn => simp [get_fixed_team, hna, ha]
  | response s b =>
      simp only [Upstream.fails, decide_eq_true_eq] at hu
      simp [get_fixed_team, hna, ha, hu]

theorem get_fixed_team_fail_cache (cache : Cache) (now : Nat)
    (u : Upstream TeamInfo) (hu : u.fails = true) :
    (get_fixed_team cache now u).2 = cache := by
  rcases hq : get_cached cache now team_cache_key with ⟨o, b⟩
  cases u with
  | exn =>
      cases o <;> cases b <;>
        simp [get_fixed_team, hq] <;>
        rcases (get_cached cache now team_cache_key true).1 with _ | s <;>
          simp <;> split <;> simp
  | response s body =>
      simp only [Upstream.fails, decide_eq_true_eq] at hu
      cases o <;> cases b <;>
        simp [get_fixed_team, hq, hu] <;>
        rcases (get_cached cache now team_cache_key true).1 with _ | s <;>
          simp <;> split <;> simp

theorem get_team_games_fresh (cache : Cache) (now : Nat)
    (team_id season per_page : Int) (v : CacheValue) (t : Nat)
    (h : cache.lookup (games_cache_key team_id season per_page) = some (v, t))
    (hf : now - t < CACHE_DURATION) (u : Upstream (List RawGame)) :
    get_team_games cache now team_id season per_page u = (v, cache) := by
  simp [get_team_games,
    get_cached_fresh cache now (games_cache_key team_id season per_page)
      false v t h hf]

theorem get_team_games_success (cache : Cache) (now : Nat)
    (team_id season per_page : Int) (data : List RawGame)
    (h2 : (get_cached cache now
      (games_cache_key team_id season per_page)).2 = false) :
    get_team_games cache now team_id season per_page (.response 200 data) =
      (CacheValue.games data,
        set_cache cache (games_cache_key team_id season per_page)
          (CacheValue.games data) now) := by
  rcases hq : get_cached cache now (games_cache_key team_id season per_page)
    with ⟨o, b⟩
  rw [hq] at h2
  subst h2
  cases o <;> simp [get_team_games, hq]

theorem get_team_games_fallback (cache : Cache) (now : Nat)
    (team_id season per_page : Int) (v : CacheValue) (t : Nat)
    (u : Upstream (List RawGame)) (hu : u.fails = true)
    (h : cache.lookup (games_cache_key team_id season per_page) = some (v, t)) :
    get_team_games cache now team_id season per_page u = (v, cache) := by
  by_cases hf : now - t < CACHE_DURATION
  · exact get_team_games_fresh cache now team_id season per_page v t h hf u
  · have hna := get_cached_stale_noallow cache now _ v t h hf
    have ha := get_cached_stale_allow cache now _ v t h hf
    have hfa : v.truthy = false → v = CacheValue.games [] := by
      intro hv
      cases v with
      | team t => simp [CacheValue.truthy] at hv
      | games g =>
          simp [CacheValue.truthy] at hv
          simp [hv]
    cases u with
    | exn =>
        rcases hv : v.truthy with _ | _
        · simp [get_team_games, hna, ha, hv, hfa hv]
        · simp [get_team_games, hna, ha, hv]
    | response s b =>
        simp only [Upstream.fails, decide_eq_true_eq] at hu
        rcases hv : v.truthy with _ | _
        · simp [get_team_games, hna, ha, hu, hv, hfa hv]
        · simp [get_team_games, hna, ha, hu, hv]

theorem get_team_games_fail_absent (cache : Cache) (now : Nat)
    (team_id season per_page : Int)
    (u : Upstream (List RawGame)) (hu : u.fails = true)
    (h : cache.lookup (games_cache_key team_id season per_page) = none) :
    get_team_games cache now team_id season per_page u =
      (CacheValue.games [], cache) := by
  have hna := get_cached_absent cache now _ false h
  have ha := get_cached_absent cache now _ true h
  cases u with
  | exn => simp [get_team_games, hna, ha]
  | response s b =>
      simp only [Upstream.fails, decide_eq_true_eq] at hu
      simp [get_team_games, hna, ha, hu]

theorem get_team_games_fail_cache (cache : Cache) (now : Nat)
    (team_id season per_page : Int)
    (u : Upstream (List RawGame)) (hu : u.fails = true) :
    (get_team_games cache now team_id season per_page u).2 = cache := by
  rcases hq : get_cached cache now (games_cache_key team_id season per_page)
    with ⟨o, b⟩
  cases u with
  | exn =>
      cases o <;> cases b <;>
        simp [get_team_games, hq] <;>
        rcases (get_cached cache now
          (games_cache_key team_id season per_page) true).1 with _ | s <;>
          simp <;> split <;> simp
  | response s body =>
      simp only [Upstream.fails, decide_eq_true_eq] at hu
      cases o <;> cases b <;>
        simp [get_team_games, hq, hu] <;>
        rcases (get_cached cache now
          (games_cache_key team_id season per_page) true).1 with _ | s <;>
          simp <;> split <;> simp

theorem normalize_game_inv (g : RawGame) :
    ((normalize_game g).won = true ↔ (normalize_game g).point_diff > 0) ∧
    (normalize_game g).point_diff =
      (normalize_game g).lakers_score - (normalize_game g).opponent_score := by
  constructor
  · simp [normalize_game, Int.sub_pos]
  · simp [normalize_game]

theorem date_le_trans (a b c : GameRecord) :
    date_le a b → date_le b c → date_le a c := by
  simp [date_le]
  exact le_trans

theorem date_le_total (a b : GameRecord) : date_le a b || date_le b a := by
  simp [date_le]
  exact le_total _ _

theorem get_lakers_games_exn :
    get_lakers_games .exn = .error "requests.get raised" := rfl

theorem get_lakers_games_bad (s : Nat) (gs : List RawGame) (hs : s ≠ 200) :
    get_lakers_games (.response s gs) = .ok [] := by
  simp [get_lakers_games, hs]

theorem get_lakers_games_ok (gs : List RawGame) :
    get_lakers_games (.response 200 gs) =
      .ok ((gs.map normalize_game).mergeSort date_le) := rfl

theorem get_lakers_games_shape (u : Upstream (List RawGame))
    (l : List GameRecord) (h : get_lakers_games u = .ok l) :
    l = [] ∨ ∃ gs, u = .response 200 gs ∧
      l = (gs.map normalize_game).mergeSort date_le := by
  cases u with
  | exn => simp [get_lakers_games] at h
  | response s gs =>
      by_cases hs : s = 200
      · subst hs
        right
        exact ⟨gs, rfl, by simpa [get_lakers_games] using h.symm⟩
      · left
        rw [get_lakers_games_bad s gs hs] at h
        exact (Except.ok.injEq _ _ ▸ h.symm : _)

theorem get_lakers_games_sorted (u : Upstream (List RawGame))
    (l : List GameRecord) (h : get_lakers_games u = .ok l) :
    l.Pairwise (fun a b => a.date ≤ b.date) := by
  rcases get_lakers_games_shape u l h with h0 | ⟨gs, _, hl⟩
  · subst h0
    exact List.Pairwise.nil
  · subst hl
    have hs := List.sorted_mergeSort date_le_trans date_le_total
      (gs.map normalize_game)
    exact hs.imp (by simp [date_le])

/-- C1 (counterexample): an entry stored at time 0; a read at time 300
(= `T + CACHE_DURATION`) with `allow_stale = False` returns `(None, False)`,
not the stored value with `isFresh = false` as the claim states. -/
theorem C1_freshness_window_counterexample :
    c1cache.lookup "team_14" = some (v0, 0) ∧
    get_cached c1cache 300 "team_14" = (none, false) ∧
    (none : Option CacheValue) ≠ some v0 := by
  refine ⟨by decide, by decide, by decide⟩

/-- C1 (amended): for an entry stored at time `T`, a read at `now ∈ [T, T+D)`
returns the stored value with `isFresh = true`; a read at `now ≥ T+D` with
`allow_stale = False` returns `(None, False)` — the stored value is only
returned by the stale read `allow_stale = True`, with `isFresh = false`. -/
theorem C1_freshness_window (cache : Cache) (k : String) (v : CacheValue)
    (T now : Nat) (hk : cache.lookup k = some (v, T)) (hT : T ≤ now) :
    (now < T + CACHE_DURATION → get_cached cache now k = (some v, true)) ∧
    (T + CACHE_DURATION ≤ now →
      get_cached cache now k = (none, false) ∧
      get_cached cache now k true = (some v, false)) := by
  constructor
  · intro h
    exact get_cached_fresh cache now k false v T hk (by omega)
  · intro h
    exact ⟨get_cached_stale_noallow cache now k v T hk (by omega),
      get_cached_stale_allow cache now k v T hk (by omega)⟩

/-- C1 witness: the amended claim evaluated on a one-entry cache stored at
time 0, read at times 100 (fresh) and 400 (stale). -/
theorem C1_freshness_window_witness :
    get_cached c1cache 100 "team_14" = (some v0, true) ∧
    get_cached c1cache 400 "team_14" = (none, false) ∧
    get_cached c1cache 400 "team_14" true = (some v0, false) :=
  ⟨(C1_freshness_window c1cache "team_14" v0 0 100 (by decide)
      (by decide)).1 (by decide),
   ((C1_freshness_window c1cache "team_14" v0 0 400 (by decide)
      (by decide)).2 (by decide)).1,
   ((C1_freshness_window c1cache "team_14" v0 0 400 (by decide)
      (by decide)).2 (by decide)).2⟩

/-- C3: if a fresh cache entry exists for the key, `get_fixed_team` (team
key) and `get_team_games` (games key) return the cached value with the cache
untouched, and the result does not depend on the upstream argument — no HTTP
request is made. -/
theorem C3_no_call_on_fresh_hit (cache : Cache) (now : Nat)
    (team_id season per_page : Int) (vt vg : CacheValue) (tt tg : Nat)
    (ht : cache.lookup team_cache_key = some (vt, tt))
    (hft : now - tt < CACHE_DURATION)
    (hg : cache.lookup (games_cache_key team_id season per_page) = some (vg, tg))
    (hfg : now - tg < CACHE_DURATION) :
    (∀ u : Upstream TeamInfo, get_fixed_team cache now u = (some vt, cache)) ∧
    (∀ u₁ u₂ : Upstream TeamInfo,
      get_fixed_team cache now u₁ = get_fixed_team cache now u₂) ∧
    (∀ u : Upstream (List RawGame),
      get_team_games cache now team_id season per_page u = (vg, cache)) ∧
    (∀ u₁ u₂ : Upstream (List RawGame),
      get_team_games cache now team_id season per_page u₁ =
        get_team_games cache now team_id season per_page u₂) := by
  refine ⟨fun u => get_fixed_team_fresh cache now vt tt ht hft u, ?_,
    fun u => get_team_games_fresh cache now team_id season per_page vg tg hg hfg u, ?_⟩
  · intro u₁ u₂
    rw [get_fixed_team_fresh cache now vt tt ht hft u₁,
      get_fixed_team_fresh cache now vt tt ht hft u₂]
  · intro u₁ u₂
    rw [get_team_games_fresh cache now team_id season per_page vg tg hg hfg u₁,
      get_team_games_fresh cache now team_id season per_page vg tg hg hfg u₂]

/-- C3 witness: a cache with fresh team and games entries (stored at 50 and
60, read at 100); failing upstreams of both kinds are ignored. -/
theorem C3_no_call_on_fresh_hit_witness :
    get_fixed_team c3cache 100 .exn = (some v0, c3cache) ∧
    get_fixed_team c3cache 100 (.response 500 tInfo0) = (some v0, c3cache) ∧
    get_team_games c3cache 100 14 2024 25 .exn =
      (CacheValue.games [cHome], c3cache) ∧
    get_team_games c3cache 100 14 2024 25 (.response 429 []) =
      (CacheValue.games [cHome], c3cache) :=
  ⟨(C3_no_call_on_fresh_hit c3cache 100 14 2024 25 v0 (CacheValue.games [cHome])
      50 60 (by decide) (by decide) (by decide) (by decide)).1 .exn,
   (C3_no_call_on_fresh_hit c3cache 100 14 2024 25 v0 (CacheValue.games [cHome])
      50 60 (by decide) (by decide) (by decide) (by decide)).1 _,
   (C3_no_call_on_fresh_hit c3cache 100 14 2024 25 v0 (CacheValue.games [cHome])
      50 60 (by decide) (by decide) (by decide) (by decide)).2.2.1 .exn,
   (C3_no_call_on_fresh_hit c3cache 100 14 2024 25 v0 (CacheValue.games [cHome])
      50 60 (by decide) (by decide) (by decide) (by decide)).2.2.1 _⟩

/-- C4: when the upstream call fails (non-200 or exception) and an entry of
any age exists for the key, both queries return that stored value and leave
the cache unchanged. -/
theorem C4_fallback_on_failure (cache : Cache) (now : Nat)
    (team_id season per_page : Int) (ti : TeamInfo) (tt : Nat)
    (vg : CacheValue) (tg : Nat)
    (uT : Upstream TeamInfo) (uG : Upstream (List RawGame))
    (huT : uT.fails = true) (huG : uG.fails = true)
    (ht : cache.lookup team_cache_key = some (CacheValue.team ti, tt))
    (hg : cache.lookup (games_cache_key team_id season per_page) = some (vg, tg)) :
    get_fixed_team cache now uT = (some (CacheValue.team ti), cache) ∧
    get_team_games cache now team_id season per_page uG = (vg, cache) :=
  ⟨get_fixed_team_fallback cache now ti tt uT huT ht,
   get_team_games_fallback cache now team_id season per_page vg tg uG huG hg⟩

/-- C4 witness: stale entries (stored at 50 and 60, read at 1000); a raised
exception and a 429 response both fall back to the stored values. -/
theorem C4_fallback_on_failure_witness :
    get_fixed_team c3cache 1000 .exn = (some v0, c3cache) ∧
    get_team_games c3cache 1000 14 2024 25 (.response 429 []) =
      (CacheValue.games [cHome], c3cache) :=
  C4_fallback_on_failure c3cache 1000 14 2024 25 tInfo0 50
    (CacheValue.games [cHome]) 60 .exn (.response 429 []) (by decide)
    (by decide) (by decide) (by decide)

/-- C5: when the upstream call fails and no entry exists for the key,
`get_fixed_team` returns `None` and `get_team_games` returns the empty list,
each leaving the cache unchanged; both functions are total, so no exception
reaches the caller. -/
theorem C5_absence_on_failure (cache : Cache) (now : Nat)
    (team_id season per_page : Int)
    (uT : Upstream TeamInfo) (uG : Upstream (List RawGame))
    (huT : uT.fails = true) (huG : uG.fails = true)
    (ht : cache.lookup team_cache_key = none)
    (hg : cache.lookup (games_cache_key team_id season per_page) = none) :
    get_fixed_team cache now uT = (none, cache) ∧
    get_team_games cache now team_id season per_page uG =
      (CacheValue.games [], cache) :=
  ⟨get_fixed_team_fail_absent cache now uT huT ht,
   get_team_games_fail_absent cache now team_id season per_page uG huG hg⟩

/-- C5 witness: the empty cache with a raised exception and a 429 response. -/
theorem C5_absence_on_failure_witness :
    get_fixed_team [] 100 .exn = (none, []) ∧
    get_team_games [] 100 14 2024 25 (.response 429 []) =
      (CacheValue.games [], []) :=
  C5_absence_on_failure [] 100 14 2024 25 .exn (.response 429 [])
    (by decide) (by decide) (by decide) (by decide)

/-- C10: a failing call (non-200 or exception) of either query leaves the
cache exactly as it was — `set_cache` runs only after a 200 response, so no
stored value or timestamp changes, and serving a stale fallback does not
refresh its timestamp. -/
theorem C10_no_mutation_on_failure (cache : Cache) (now : Nat)
    (team_id season per_page : Int)
    (uT : Upstream TeamInfo) (uG : Upstream (List RawGame))
    (huT : uT.fails = true) (huG : uG.fails = true) :
    (get_fixed_team cache now uT).2 = cache ∧
    (get_team_games cache now team_id season per_page uG).2 = cache :=
  ⟨get_fixed_team_fail_cache cache now uT huT,
   get_team_games_fail_cache cache now team_id season per_page uG huG⟩

/-- C10 witness: failing calls over a cache with stale entries leave it
untouched. -/
theorem C10_no_mutation_on_failure_witness :
    (get_fixed_team c3cache 1000 .exn).2 = c3cache ∧
    (get_team_games c3cache 1000 14 2024 25 (.response 429 [])).2 = c3cache :=
  C10_no_mutation_on_failure c3cache 1000 14 2024 25 .exn (.response 429 [])
    (by decide) (by decide)

/-- C6: normalization depends only on the subject team identity, not its
home/visitor position: the home-side record (subject id 14 at home, 100–90)
normalizes to scores 100/90, location "Home", won, point diff 10; the
mirrored record normalizes to the same scores and outcome with location
"Away". -/
theorem C6_normalization_symmetry :
    ((normalize_game cHome).lakers_score = 100 ∧
     (normalize_game cHome).opponent_score = 90 ∧
     (normalize_game cHome).location = "Home" ∧
     (normalize_game cHome).won = true ∧
     (normalize_game cHome).point_diff = 10) ∧
    ((normalize_game cAway).lakers_score = 100 ∧
     (normalize_game cAway).opponent_score = 90 ∧
     (normalize_game cAway).location = "Away" ∧
     (normalize_game cAway).won = true ∧
     (normalize_game cAway).point_diff = 10) := by
  refine ⟨⟨rfl, rfl, rfl, rfl, rfl⟩, ⟨rfl, rfl, rfl, rfl, rfl⟩⟩

/-- C7: every record in a list returned by `get_lakers_games` satisfies the
invariant `won = (point_diff > 0)` and
`point_diff = lakers_score - opponent_score`, for any raw upstream input. -/
theorem C7_record_invariant (u : Upstream (List RawGame))
    (l : List GameRecord) (h : get_lakers_games u = .ok l)
    (r : GameRecord) (hr : r ∈ l) :
    (r.won = true ↔ r.point_diff > 0) ∧
    r.point_diff = r.lakers_score - r.opponent_score := by
  rcases get_lakers_games_shape u l h with h0 | ⟨gs, _, hl⟩
  · subst h0
    simp at hr
  · subst hl
    rw [List.mem_mergeSort] at hr
    rcases List.mem_map.mp hr with ⟨g, _, rfl⟩
    exact normalize_game_inv g

/-- C7 witness: the invariant on the record produced from a concrete 100–90
home game returned by `get_lakers_games`. -/
theorem C7_record_invariant_witness :
    ((normalize_game cHome).won = true ↔ (normalize_game cHome).point_diff > 0) ∧
    (normalize_game cHome).point_diff =
      (normalize_game cHome).lakers_score - (normalize_game cHome).opponent_score :=
  C7_record_invariant (.response 200 [cHome]) _ rfl _
    (by simp [List.mem_mergeSort])

/-- C8: every list returned by `get_lakers_games` is sorted by date
ascending, whatever the raw order. -/
theorem C8_sorted_by_date (u : Upstream (List RawGame))
    (l : List GameRecord) (h : get_lakers_games u = .ok l) :
    l.Pairwise (fun a b => a.date ≤ b.date) :=
  get_lakers_games_sorted u l h

/-- C8 witness: raw records dated 2024-03-01, 2024-01-10, 2024-02-15 come out
ordered 2024-01-10, 2024-02-15, 2024-03-01, and the output is sorted. -/
theorem C8_sorted_by_date_witness :
    get_lakers_games (.response 200 [rawMar, rawJan, rawFeb]) =
      .ok processed3 ∧
    processed3.map GameRecord.date =
      ["2024-01-10", "2024-02-15", "2024-03-01"] ∧
    processed3.Pairwise (fun a b => a.date ≤ b.date) :=
  ⟨rfl,
   by
    simp only [processed3, List.map, normalize_game, is_lakers_home,
      opponent_team, rawMar, rawJan, rawFeb, rawLakersHome, Option.getD,
      LAKERS_TEAM_ID]
    simp +decide [List.mergeSort, List.splitInTwo, List.splitAt,
      List.splitAt.go, List.merge, date_le],
   C8_sorted_by_date (.response 200 [rawMar, rawJan, rawFeb]) processed3 rfl⟩

/-- C9: per-record defaulting in `get_lakers_games`: a missing home or
visitor score contributes 0 to whichever side it feeds, a missing opponent
`full_name` becomes "Unknown", missing `date`/`status` become ""; the record
is still emitted and the whole input list is processed (the output is a
permutation of the normalized input). -/
theorem C9_missing_field_defaults (g : RawGame) (gs : List RawGame)
    (l : List GameRecord) (hmem : g ∈ gs)
    (hl : get_lakers_games (.response 200 gs) = .ok l) :
    (g.home_team_score = none →
      (if is_lakers_home g then (normalize_game g).lakers_score
       else (normalize_game g).opponent_score) = 0) ∧
    (g.visitor_team_score = none →
      (if is_lakers_home g then (normalize_game g).opponent_score
       else (normalize_game g).lakers_score) = 0) ∧
    ((opponent_team g).full_name = none →
      (normalize_game g).opponent = "Unknown") ∧
    (g.date = none → (normalize_game g).date = "") ∧
    (g.status = none → (normalize_game g).status = "") ∧
    normalize_game g ∈ l ∧
    l.Perm (gs.map normalize_game) := by
  have hl0 : l = (gs.map normalize_game).mergeSort date_le := by
    rw [get_lakers_games_ok] at hl
    exact (Except.ok.inj hl).symm
  subst hl0
  refine ⟨?_, ?_, ?_, ?_, ?_, ?_, List.mergeSort_perm _ _⟩
  · intro h
    by_cases hh : is_lakers_home g <;> simp [normalize_game, h, hh]
  · intro h
    by_cases hh : is_lakers_home g <;> simp [normalize_game, h, hh]
  · intro h
    simp [normalize_game, h]
  · intro h
    simp [normalize_game, h]
  · intro h
    simp [normalize_game, h]
  · rw [List.mem_mergeSort]
    exact List.mem_map_of_mem normalize_game hmem

/-- C9 witness: an all-fields-missing record inside a two-record payload is
normalized to the safe defaults, still emitted, and the other record is
processed too. -/
theorem C9_missing_field_defaults_witness :
    (normalize_game rawEmpty).opponent_score = 0 ∧
    (normalize_game rawEmpty).lakers_score = 0 ∧
    (normalize_game rawEmpty).opponent = "Unknown" ∧
    (normalize_game rawEmpty).date = "" ∧
    (normalize_game rawEmpty).status = "" ∧
    normalize_game rawEmpty ∈ processedE ∧
    processedE.Perm ([rawJan, rawEmpty].map normalize_game) := by
  have h := C9_missing_field_defaults rawEmpty [rawJan, rawEmpty] processedE
    (by simp) rfl
  exact ⟨by simpa using h.1 rfl, by simpa using h.2.1 rfl, h.2.2.1 rfl,
    h.2.2.2.1 rfl, h.2.2.2.2.1 rfl, h.2.2.2.2.2.1, h.2.2.2.2.2.2⟩

/-- C2 (counterexample): `get_lakers_games` does not perform the
fetch-with-fallback protocol.  Its embedding takes no cache at all; on a
raised upstream exception the exception propagates to the caller instead of
any stored entry being served, and on a 429 response it returns the empty
list unconditionally, whatever was previously fetched. -/
theorem C2_query_surface_counterexample :
    get_lakers_games .exn = .error "requests.get raised" ∧
    get_lakers_games (.response 429 [rawJan]) = .ok [] ∧
    (Except.error "requests.get raised" :
      Except String (List GameRecord)).isOk = false := by
  refine ⟨rfl, get_lakers_games_bad 429 [rawJan] (by decide), rfl⟩

/-- C2 (amended): `get_fixed_team` and `get_team_games` each perform the
fetch-with-fallback protocol — a fresh hit is returned without consulting
upstream, a 200 result is stored under the key, and a failure falls back to
the stored entry — but `get_lakers_games` (used by the Dash dashboard) does
not: it consults no cache, calls upstream on every invocation, returns the
empty list on a non-200 response, and lets an exception propagate. -/
theorem C2_query_surface_amended (cache : Cache) (now : Nat)
    (team_id season per_page : Int) (vt vg : CacheValue) (tt tg : Nat)
    (ti : TeamInfo) (gs : List RawGame) (s : Nat)
    (uT : Upstream TeamInfo) (uG : Upstream (List RawGame)) :
    (cache.lookup team_cache_key = some (vt, tt) →
      now - tt < CACHE_DURATION →
      get_fixed_team cache now uT = (some vt, cache)) ∧
    ((get_cached cache now team_cache_key).2 = false →
      get_fixed_team cache now (.response 200 ti) =
        (some (CacheValue.team ti),
          set_cache cache team_cache_key (CacheValue.team ti) now)) ∧
    (uT.fails = true →
      cache.lookup team_cache_key = some (CacheValue.team ti, tt) →
      get_fixed_team cache now uT = (some (CacheValue.team ti), cache)) ∧
    (cache.lookup (games_cache_key team_id season per_page) = some (vg, tg) →
      now - tg < CACHE_DURATION →
      get_team_games cache now team_id season per_page uG = (vg, cache)) ∧
    ((get_cached cache now (games_cache_key team_id season per_page)).2 = false →
      get_team_games cache now team_id season per_page (.response 200 gs) =
        (CacheValue.games gs,
          set_cache cache (games_cache_key team_id season per_page)
            (CacheValue.games gs) now)) ∧
    (uG.fails = true →
      cache.lookup (games_cache_key team_id season per_page) = some (vg, tg) →
      get_team_games cache now team_id season per_page uG = (vg, cache)) ∧
    get_lakers_games .exn = .error "requests.get raised" ∧
    (s ≠ 200 → get_lakers_games (.response s gs) = .ok []) ∧
    get_lakers_games (.response 200 gs) =
      .ok ((gs.map normalize_game).mergeSort date_le) :=
  ⟨fun h hf => get_fixed_team_fresh cache now vt tt h hf uT,
   fun h2 => get_fixed_team_success cache now ti h2,
   fun hu h => get_fixed_team_fallback cache now ti tt uT hu h,
   fun h hf => get_team_games_fresh cache now team_id season per_page vg tg h hf uG,
   fun h2 => get_team_games_success cache now team_id season per_page gs h2,
   fun hu h => get_team_games_fallback cache now team_id season per_page vg tg uG hu h,
   rfl,
   fun hs => get_lakers_games_bad s gs hs,
   rfl⟩

/-- C2 witness: the amended claim evaluated concretely — fresh hits at time
100, a stale refresh and fallbacks at time 1000, and the three direct
behaviors of `get_lakers_games`. -/
theorem C2_query_surface_witness :
    get_fixed_team c3cache 100 .exn = (some v0, c3cache) ∧
    get_team_games c3cache 100 14 2024 25 (.response 429 []) =
      (CacheValue.games [cHome], c3cache) ∧
    get_fixed_team c3cache 1000 (.response 200 tInfo0) =
      (some v0, set_cache c3cache team_cache_key v0 1000) ∧
    get_team_games c3cache 1000 14 2024 25 (.response 200 [rawJan]) =
      (CacheValue.games [rawJan],
        set_cache c3cache (games_cache_key 14 2024 25)
          (CacheValue.games [rawJan]) 1000) ∧
    get_fixed_team c3cache 1000 .exn = (some v0, c3cache) ∧
    get_team_games c3cache 1000 14 2024 25 (.response 429 []) =
      (CacheValue.games [cHome], c3cache) ∧
    get_lakers_games .exn = .error "requests.get raised" ∧
    get_lakers_games (.response 429 [rawJan]) = .ok [] ∧
    get_lakers_games (.response 200 [rawJan]) =
      .ok (([rawJan].map normalize_game).mergeSort date_le) := by
  have hA := C2_query_surface_amended c3cache 100 14 2024 25 v0
    (CacheValue.games [cHome]) 50 60 tInfo0 [rawJan] 429 .exn
    (.response 429 [])
  have hB := C2_query_surface_amended c3cache 1000 14 2024 25 v0
    (CacheValue.games [cHome]) 50 60 tInfo0 [rawJan] 429 .exn
    (.response 429 [])
  exact ⟨hA.1 (by decide) (by decide),
    hA.2.2.2.1 (by decide) (by decide),
    hB.2.1 (by decide),
    hB.2.2.2.2.1 (by decide),
    hB.2.2.1 (by decide) (by decide),
    hB.2.2.2.2.2.1 (by decide) (by decide),
    hB.2.2.2.2.2.2.1,
    hB.2.2.2.2.2.2.2.1 (by decide),
    hB.2.2.2.2.2.2.2.2⟩
